import Mathlib

/-!
Shallow embedding of the Xplore-NU backend authentication subsystem
(`src/controllers/authController.js`, `src/middleware/authMiddlewares.js`,
`src/routes/authRoutes.js`, `src/models/user.js`, `src/utils/hashPassword.js`).

External collaborators (MongoDB via mongoose, the `jsonwebtoken` library,
`bcryptjs`, `nodemailer`, `crypto.randomInt`) are modelled as explicit
parameters or explicit random draws; the process-local mutable state
(the user collection, the OTP `Map`, the blacklist `Set`) is threaded
explicitly through every handler.
-/

namespace XploreNU

/-- A JSON value, as produced by Express's `res.json`.  Numbers that occur in
this subsystem's bodies are ids, hence `Nat`. -/
inductive Json where
  | null : Json
  | str : String → Json
  | num : Nat → Json
  | obj : List (String × Json) → Json
  | arr : List Json → Json

/-- A persisted user document (`models/user.js`): firstName, lastName, email,
password (stored as a bcrypt hash), role, refreshToken (default null). -/
structure StoredUser where
  id : Nat
  firstName : String
  lastName : String
  email : String
  password : String
  role : String
  refreshToken : Option String
deriving DecidableEq, Repr

/-- An entry of the OTP store: `{ otp, expiresAt }` (milliseconds). -/
structure OtpEntry where
  otp : String
  expiresAt : Nat
deriving DecidableEq, Repr

/-- The process state touched by the auth subsystem: the `users` collection,
the module-level `otpStore : Map<string, {otp, expiresAt}>` and the
module-level `blacklistedTokens : Set`.  The blacklist holds the raw
`req.headers.authorization` values, which in JavaScript may be `undefined`
(modelled as `none`). -/
structure AuthState where
  users : List StoredUser
  otpStore : List (String × OtpEntry)
  blacklistedTokens : List (Option String)
deriving DecidableEq, Repr

/-- An HTTP response: status code plus JSON body. -/
structure Response where
  status : Nat
  body : Json

/-- `res.status(s).json({ message: m })`. -/
def msgBody (m : String) : Json := Json.obj [("message", Json.str m)]

/-- JavaScript `Set.prototype.add`: inserts only when absent. -/
def setAdd (t : Option String) (s : List (Option String)) : List (Option String) :=
  if t ∈ s then s else t :: s

/-- `isTokenBlacklisted` (authMiddlewares.js line 20): membership in the set. -/
def isTokenBlacklisted (t : Option String) (s : List (Option String)) : Bool :=
  decide (t ∈ s)

/-- `otpStore.has(email)`. -/
def mapHas (k : String) (m : List (String × OtpEntry)) : Bool :=
  m.any (fun p => p.1 == k)

/-- `otpStore.get(email)`. -/
def mapGet (k : String) (m : List (String × OtpEntry)) : Option OtpEntry :=
  (m.find? (fun p => p.1 == k)).map Prod.snd

/-- `otpStore.set(email, v)`: overwrite in place when present, append when new. -/
def mapSet (k : String) (v : OtpEntry) (m : List (String × OtpEntry)) :
    List (String × OtpEntry) :=
  if mapHas k m then m.map (fun p => if p.1 == k then (k, v) else p)
  else m ++ [(k, v)]

/-- `otpStore.delete(email)`. -/
def mapDelete (k : String) (m : List (String × OtpEntry)) :
    List (String × OtpEntry) :=
  m.filter (fun p => p.1 != k)

/-- `User.findOne({ email })`. -/
def findOneByEmail (email : String) (users : List StoredUser) : Option StoredUser :=
  users.find? (fun u => u.email == email)

/-- `User.findOne({ _id: uid, refreshToken: rt })` (authController.js lines
280-283): matches a document only when both fields equal the query values; a
document whose refreshToken is null does not match a string query. -/
def findOneByIdAndRefreshToken (uid : Nat) (rt : String) (users : List StoredUser) :
    Option StoredUser :=
  users.find? (fun u => u.id == uid && u.refreshToken == some rt)

/-- `User.findByIdAndUpdate(userId, { refreshToken: null })`. -/
def clearRefreshTokenById (uid : Nat) (users : List StoredUser) : List StoredUser :=
  users.map (fun u => if u.id == uid then { u with refreshToken := none } else u)

/-- Node's `crypto.randomInt(minVal, maxVal)`: uniform over
`[minVal, maxVal)` — the upper bound is exclusive.  `r` is the library's
underlying uniform draw; `% (maxVal - minVal)` maps it into the range. -/
def randomInt (minVal maxVal r : Nat) : Nat :=
  minVal + r % (maxVal - minVal)

/-- `crypto.randomInt(100000, 999999)` (authController.js lines 342 and 417). -/
def genOtpNat (r : Nat) : Nat := randomInt 100000 999999 r

/-- `crypto.randomInt(100000, 999999).toString()`. -/
def genOtp (r : Nat) : String := Nat.repr (genOtpNat r)

/-- The signing side of the `jsonwebtoken` collaborator:
`jwt.sign({userId, email, role}, secret, 1h)` for access tokens and
`jwt.sign({userId}, secret, 7d)` for refresh tokens. -/
structure TokenSigner where
  signAccess : Nat → String → String → String
  signRefresh : Nat → String

/-- The claims `jwt.verify` attaches to `req.user` for an access token. -/
structure AccessClaims where
  userId : Nat
  email : String
  role : String
deriving DecidableEq, Repr

/-- JavaScript string falsiness: the empty string is falsy. -/
def jsFalsyStr (s : String) : Bool := s == ""

/-- The characters of the register regex's class `[!@#$%^&*(),.?":\x7b\x7d|<>]`. -/
def specialChars : List Char :=
  ['!', '@', '#', '$', '%', '^', '&', '*', '(', ')', ',', '.', '?', '"',
   ':', '\x7b', '\x7d', '|', '<', '>']

/-- `[A-Za-z]`. -/
def isAsciiLetter (c : Char) : Bool :=
  ('A' ≤ c && c ≤ 'Z') || ('a' ≤ c && c ≤ 'z')

/-- `\d`. -/
def isAsciiDigit (c : Char) : Bool := '0' ≤ c && c ≤ '9'

/-- The register password regex
`^(?=.*[A-Za-z])(?=.*\d)(?=.*[!@#$%^&*(),.?":\x7b\x7d|<>]).\x7b8,\x7d$`:
at least 8 characters with at least one letter, one digit and one special
character. -/
def passwordRegexTest (p : String) : Bool :=
  p.length ≥ 8 && p.data.any isAsciiLetter && p.data.any isAsciiDigit
    && p.data.any (fun c => specialChars.contains c)

/-- The public user projection built inline in the register and login
responses: `{ id, firstName, lastName, email, role }`. -/
def userProjection (u : StoredUser) : Json :=
  Json.obj [("id", Json.num u.id),
            ("firstName", Json.str u.firstName),
            ("lastName", Json.str u.lastName),
            ("email", Json.str u.email),
            ("role", Json.str u.role)]

/-- Mongoose serialization of a full user document, as `res.json(users)`
performs in `getAllUsers`: every schema field is included (the schema sets
no `select: false`), so the stored bcrypt hash and refresh token appear. -/
def serializeUser (u : StoredUser) : Json :=
  Json.obj [("_id", Json.num u.id),
            ("firstName", Json.str u.firstName),
            ("lastName", Json.str u.lastName),
            ("email", Json.str u.email),
            ("password", Json.str u.password),
            ("role", Json.str u.role),
            ("refreshToken",
              match u.refreshToken with
              | none => Json.null
              | some t => Json.str t)]

/-- The top-level fields of a JSON object (empty for non-objects). -/
def objFields : Json → List (String × Json)
  | Json.obj fields => fields
  | _ => []

/-- The elements of a JSON array (empty for non-arrays). -/
def arrElems : Json → List Json
  | Json.arr xs => xs
  | _ => []

/-- The top-level keys of a JSON object. -/
def topLevelKeys (j : Json) : List String := (objFields j).map Prod.fst

/-! ### The request handlers of `controllers/authController.js` -/

/-- `registerUser` (authController.js lines 33-133).  `hashPassword` is the
bcrypt-based `utils/hashPassword.js` collaborator, `newId` the id MongoDB
assigns to the inserted document.  In JavaScript a missing body field is
`undefined`, which is falsy like the empty string; the model folds both
falsy cases into `""`. -/
def registerUser (hashPassword : String → String) (ts : TokenSigner) (newId : Nat)
    (firstName lastName email password : String) (st : AuthState) :
    Response × AuthState :=
  if jsFalsyStr firstName || jsFalsyStr lastName || jsFalsyStr email
      || jsFalsyStr password then
    (⟨400, Json.obj [("message", Json.str "Registration was unsuccessful"),
        ("error", Json.str "Missing required fields. Please ensure 'firstName', 'lastName', 'email', 'password' are provided.")]⟩,
     st)
  else if ¬ passwordRegexTest password then
    (⟨400, Json.obj [("message", Json.str "Registration was unsuccessful"),
        ("error", Json.str "Password must be at least 8 characters long, contain at least one letter, one number, and one special character.")]⟩,
     st)
  else
    let role := if email.endsWith "@northeastern.edu" then "student" else "visitor"
    match findOneByEmail email st.users with
    | some _ =>
      (⟨400, Json.obj [("message", Json.str "Registration was unsuccessful"),
          ("error", Json.str "You are already registered. Please try logging in instead.")]⟩,
       st)
    | none =>
      let hashedPassword := hashPassword password
      let newUser : StoredUser :=
        ⟨newId, firstName, lastName, email, hashedPassword, role, none⟩
      let usersSaved := st.users ++ [newUser]
      match findOneByEmail email usersSaved with
      | none =>
        -- unreachable: the document was just saved; in JS a null here would
        -- throw on `user._id` and land in the 500 catch
        (⟨500, Json.obj [("message", Json.str "An error occurred while creating the account. Please try again later.")]⟩,
         { st with users := usersSaved })
      | some user =>
        let accessToken := ts.signAccess user.id user.email user.role
        let refreshTok := ts.signRefresh user.id
        let users' := usersSaved.map (fun u =>
          if u.id == user.id then { u with refreshToken := some refreshTok } else u)
        (⟨201, Json.obj [("message", Json.str "Account created successfully!"),
            ("accessToken", Json.str accessToken),
            ("refreshToken", Json.str refreshTok),
            ("user", userProjection user)]⟩,
         { st with users := users' })

/-- `getAllUsers` (authController.js lines 143-150): `User.find()` then
`res.status(200).json(users)` — the documents are serialized whole. -/
def getAllUsers (st : AuthState) : Response × AuthState :=
  (⟨200, Json.arr (st.users.map serializeUser)⟩, st)

/-- `loginUser` (authController.js lines 163-213).  `bcryptCompare` is
`bcrypt.compare`. -/
def loginUser (bcryptCompare : String → String → Bool) (ts : TokenSigner)
    (email password : String) (st : AuthState) : Response × AuthState :=
  match findOneByEmail email st.users with
  | none => (⟨401, msgBody "Invalid credentials"⟩, st)
  | some user =>
    if ¬ bcryptCompare password user.password then
      (⟨401, msgBody "Invalid credentials"⟩, st)
    else
      let accessToken := ts.signAccess user.id user.email user.role
      let refreshTok := ts.signRefresh user.id
      let users' := st.users.map (fun u =>
        if u.id == user.id then { u with refreshToken := some refreshTok } else u)
      (⟨200, Json.obj [("message", Json.str "Login successful"),
          ("accessToken", Json.str accessToken),
          ("refreshToken", Json.str refreshTok),
          ("user", userProjection user)]⟩,
       { st with users := users' })

/-- A logout request as the handler sees it: the raw authorization header and
`req.user` (set only when some middleware ran `jwt.verify` beforehand). -/
structure LogoutRequest where
  authHeader : Option String
  user : Option AccessClaims

/-- `logoutUser` (authController.js lines 227-246): blacklist the raw header
value unconditionally, then clear the stored refresh token only when
`req.user && req.user.userId` is available. -/
def logoutUser (req : LogoutRequest) (st : AuthState) : Response × AuthState :=
  let token := req.authHeader
  let blacklist' := setAdd token st.blacklistedTokens
  let users' :=
    match req.user with
    | some claims => clearRefreshTokenById claims.userId st.users
    | none => st.users
  (⟨200, msgBody "Logged out successfully"⟩,
   { st with blacklistedTokens := blacklist', users := users' })

/-- The logout operation as actually mounted: `router.post("/logout",
logoutUser)` (authRoutes.js line 47) attaches no `authenticateJWT`, so
`req.user` is always undefined when the handler runs. -/
def logoutRoute (authHeader : Option String) (st : AuthState) :
    Response × AuthState :=
  logoutUser ⟨authHeader, none⟩ st

/-- `refreshToken` (authController.js lines 260-309).  `jwtVerifyRefresh`
models `jwt.verify` on the presented refresh token: `some userId` when the
signature checks out and the token is unexpired, `none` when it throws. -/
def refreshToken (jwtVerifyRefresh : String → Option Nat) (ts : TokenSigner)
    (bodyRefreshToken : Option String) (authHeader : Option String)
    (st : AuthState) : Response × AuthState :=
  let oldAccessToken := authHeader
  match bodyRefreshToken with
  | none => (⟨400, msgBody "Refresh token is required"⟩, st)
  | some rt =>
    if rt == "" then (⟨400, msgBody "Refresh token is required"⟩, st)
    else
      match jwtVerifyRefresh rt with
      | none => (⟨401, msgBody "Invalid or expired refresh token"⟩, st)
      | some uid =>
        match findOneByIdAndRefreshToken uid rt st.users with
        | none => (⟨401, msgBody "Invalid refresh token or user not found"⟩, st)
        | some user =>
          let accessToken := ts.signAccess user.id user.email user.role
          let blacklist' :=
            match oldAccessToken with
            | some t =>
              if t == "" then st.blacklistedTokens
              else setAdd (some t) st.blacklistedTokens
            | none => st.blacklistedTokens
          (⟨200, Json.obj [("message", Json.str "Token refreshed successfully"),
              ("accessToken", Json.str accessToken)]⟩,
           { st with blacklistedTokens := blacklist' })

/-- `forgotPassword` (authController.js lines 333-358).  `r` is the random
draw consumed by `crypto.randomInt`, `now` is `Date.now()`; the email send
is delegated to nodemailer and modelled as succeeding. -/
def forgotPassword (r now : Nat) (email : String) (st : AuthState) :
    Response × AuthState :=
  match findOneByEmail email st.users with
  | none => (⟨404, msgBody "User with this email does not exist."⟩, st)
  | some _ =>
    let otp := genOtp r
    let store' := mapSet email ⟨otp, now + 5 * 60 * 1000⟩ st.otpStore
    (⟨200, msgBody "OTP sent to your email."⟩, { st with otpStore := store' })

/-- `verifyOtp` (authController.js lines 371-397).  The `otpStore.has(email)`
guard corresponds to the `none` branch of `mapGet` (see `mapHas_eq_isSome`). -/
def verifyOtp (now : Nat) (email otp : String) (st : AuthState) :
    Response × AuthState :=
  match mapGet email st.otpStore with
  | none => (⟨400, msgBody "No OTP request found. Please request OTP again."⟩, st)
  | some storedOtpData =>
    if storedOtpData.expiresAt < now then
      (⟨400, msgBody "OTP expired. Please request a new one."⟩,
       { st with otpStore := mapDelete email st.otpStore })
    else if storedOtpData.otp ≠ otp then
      (⟨400, msgBody "Invalid OTP. Please try again."⟩, st)
    else
      (⟨200, msgBody "OTP verified successfully. You can now reset your password."⟩,
       { st with otpStore := mapDelete email st.otpStore })

/-- `resendOtp` (authController.js lines 409-433). -/
def resendOtp (r now : Nat) (email : String) (st : AuthState) :
    Response × AuthState :=
  if ¬ mapHas email st.otpStore then
    (⟨400, msgBody "No OTP request found. Please request OTP again."⟩, st)
  else
    let otp := genOtp r
    let store' := mapSet email ⟨otp, now + 5 * 60 * 1000⟩ st.otpStore
    (⟨200, msgBody "New OTP sent to your email."⟩, { st with otpStore := store' })

/-- `resetPassword` (authController.js lines 446-464). -/
def resetPassword (hashPassword : String → String) (email newPassword : String)
    (st : AuthState) : Response × AuthState :=
  match findOneByEmail email st.users with
  | none => (⟨404, msgBody "User with this email does not exist."⟩, st)
  | some user =>
    let hashedPassword := hashPassword newPassword
    let users' := st.users.map (fun u =>
      if u.id == user.id then { u with password := hashedPassword } else u)
    (⟨200, msgBody "Password reset successful. You can now log in."⟩,
     { st with users := users' })

/-- The outcome of the `authenticateJWT` middleware: either an early JSON
rejection, or `req.user` is populated and the chain continues. -/
inductive AuthOutcome where
  | rejected (resp : Response)
  | authenticated (claims : AccessClaims)

/-- `authenticateJWT` (authMiddlewares.js lines 30-45).  The blacklist is
consulted on the raw header value before any verification; `jwt.verify`
throws on `undefined` (header absent) and on bad tokens, yielding the 403
branch.  `jwtVerify` models `jwt.verify` on an actual string. -/
def authenticateJWT (jwtVerify : String → Option AccessClaims)
    (authHeader : Option String) (st : AuthState) : AuthOutcome :=
  if isTokenBlacklisted authHeader st.blacklistedTokens then
    .rejected ⟨401, msgBody "Token is invalid (logged out)"⟩
  else
    match authHeader with
    | none => .rejected ⟨403, msgBody "Invalid token"⟩
    | some t =>
      match jwtVerify t with
      | none => .rejected ⟨403, msgBody "Invalid token"⟩
      | some claims => .authenticated claims

/-! ### Helper lemmas about the store primitives -/

theorem mapHas_eq_isSome (k : String) (m : List (String × OtpEntry)) :
    mapHas k m = (mapGet k m).isSome := by
  induction m with
  | nil => rfl
  | cons p rest ih =>
    by_cases h : p.1 == k
    · simp [mapHas, mapGet, List.find?_cons, h]
    · simp only [mapHas, mapGet, List.find?_cons, h, List.any_cons,
        Bool.false_or, cond_false] at ih ⊢
      exact ih

theorem mapGet_mapDelete_self (k : String) (m : List (String × OtpEntry)) :
    mapGet k (mapDelete k m) = none := by
  unfold mapGet
  rw [Option.map_eq_none', List.find?_eq_none]
  intro p hp
  have hkeep := (List.mem_filter.mp hp).2
  simp only [bne_iff_ne, ne_eq] at hkeep
  simp [hkeep]

theorem mapHas_mapDelete_self (k : String) (m : List (String × OtpEntry)) :
    mapHas k (mapDelete k m) = false := by
  rw [mapHas_eq_isSome, mapGet_mapDelete_self]
  rfl

theorem setAdd_mem (t : Option String) (s : List (Option String)) :
    t ∈ setAdd t s := by
  unfold setAdd
  by_cases h : t ∈ s <;> simp [h]

/-! ### The claims -/

/-- C9: revocation is idempotent — adding a token to the blacklist twice
leaves the set exactly as adding it once, `isTokenBlacklisted` is true
afterwards, and a logout request always returns the 200 success response
(in particular when the presented token is already blacklisted, as in the
final concrete conjunct, where the registry is also unchanged). -/
theorem revoke_idempotent_logout_succeeds :
    (∀ (t : Option String) (s : List (Option String)),
        setAdd t (setAdd t s) = setAdd t s
        ∧ isTokenBlacklisted t (setAdd t s) = true) ∧
    (∀ (h : Option String) (st : AuthState),
        (logoutRoute h st).1 = ⟨200, msgBody "Logged out successfully"⟩) ∧
    ((logoutRoute (some "TOK") ⟨[], [], [some "TOK"]⟩).2.blacklistedTokens
        = [some "TOK"]) := by
  refine ⟨fun t s => ⟨?_, ?_⟩, fun h st => rfl, ?_⟩
  · by_cases h : t ∈ s <;> simp [setAdd, h]
  · simpa [isTokenBlacklisted] using setAdd_mem t s
  · rfl

/-- C10: a logout request with no authorization header inserts the missing
header value (`undefined`, modelled as `none`) into the blacklist; once
`none` is blacklisted, the middleware rejects every header-less request
with the 401 "logged out" response (the blacklist check runs before
`jwt.verify`), whereas before any such logout a header-less request gets
the 403 "Invalid token" response. -/
theorem logout_no_header_blacklists_undefined :
    (∀ st : AuthState,
        isTokenBlacklisted none ((logoutRoute none st).2.blacklistedTokens) = true) ∧
    (∀ (jv : String → Option AccessClaims) (st : AuthState),
        none ∈ st.blacklistedTokens →
        authenticateJWT jv none st
          = .rejected ⟨401, msgBody "Token is invalid (logged out)"⟩) ∧
    (∀ (jv : String → Option AccessClaims) (st : AuthState),
        authenticateJWT jv none ((logoutRoute none st).2)
          = .rejected ⟨401, msgBody "Token is invalid (logged out)"⟩) ∧
    (∀ jv : String → Option AccessClaims,
        authenticateJWT jv none ⟨[], [], []⟩
          = .rejected ⟨403, msgBody "Invalid token"⟩) := by
  have hmem : ∀ st : AuthState,
      isTokenBlacklisted none ((logoutRoute none st).2.blacklistedTokens) = true := by
    intro st
    simpa [logoutRoute, logoutUser, isTokenBlacklisted]
      using setAdd_mem none st.blacklistedTokens
  have hrej : ∀ (jv : String → Option AccessClaims) (st : AuthState),
      none ∈ st.blacklistedTokens →
      authenticateJWT jv none st
        = .rejected ⟨401, msgBody "Token is invalid (logged out)"⟩ := by
    intro jv st hin
    simp [authenticateJWT, isTokenBlacklisted, hin]
  refine ⟨hmem, hrej, fun jv st => ?_, fun jv => rfl⟩
  apply hrej
  simpa [logoutRoute, logoutUser] using setAdd_mem none st.blacklistedTokens

/-- Witness for C10: with `none` concretely blacklisted, a header-less
request is rejected with the 401 "logged out" response. -/
theorem logout_no_header_blacklists_undefined_witness :
    authenticateJWT (fun _ => none) none ⟨[], [], [none]⟩
      = .rejected ⟨401, msgBody "Token is invalid (logged out)"⟩ :=
  logout_no_header_blacklists_undefined.2.1 (fun _ => none)
    ⟨[], [], [none]⟩ (by simp)

/-- C3 counterexample: the code calls `crypto.randomInt(100000, 999999)`,
whose upper bound is exclusive, so the six-digit code 999999 is never
generated — contradicting the claim that all 900000 codes from 100000 to
999999 are produced with equal probability. -/
theorem otp_999999_never_generated : ¬ ∃ r : Nat, genOtpNat r = 999999 := by
  rintro ⟨r, hr⟩
  have hm : r % 899999 < 899999 := Nat.mod_lt _ (by norm_num)
  simp only [genOtpNat, randomInt] at hr
  omega

/-- C3 (amended): every generated code lies in [100000, 999998], has exactly
six decimal digits, and the generator restricted to the draw space
[0, 899999) is a bijection onto that range — i.e. the 899999 codes from
100000 to 999998 are produced with equal probability. -/
theorem otp_uniform_six_digits_truncated :
    (∀ r : Nat, 100000 ≤ genOtpNat r ∧ genOtpNat r ≤ 999998
        ∧ (Nat.digits 10 (genOtpNat r)).length = 6) ∧
    (∀ c : Nat, 100000 ≤ c → c ≤ 999998 →
        ∃! r : Nat, r < 899999 ∧ genOtpNat r = c) := by
  constructor
  · intro r
    have hm : r % 899999 < 899999 := Nat.mod_lt _ (by norm_num)
    have h1 : 100000 ≤ genOtpNat r := by
      simp only [genOtpNat, randomInt]; omega
    have h2 : genOtpNat r ≤ 999998 := by
      simp only [genOtpNat, randomInt]; omega
    refine ⟨h1, h2, ?_⟩
    have hlog : Nat.log 10 (genOtpNat r) = 5 :=
      Nat.log_eq_of_pow_le_of_lt_pow (by norm_num; omega) (by norm_num; omega)
    rw [Nat.digits_len 10 _ (by norm_num) (by omega), hlog]
  · intro c hc1 hc2
    refine ⟨c - 100000, ⟨by omega, ?_⟩, fun r hr => ?_⟩
    · simp only [genOtpNat, randomInt]
      have : (c - 100000) % 899999 = c - 100000 := Nat.mod_eq_of_lt (by omega)
      omega
    · obtain ⟨hrlt, hrc⟩ := hr
      simp only [genOtpNat, randomInt] at hrc
      have : r % 899999 = r := Nat.mod_eq_of_lt hrlt
      omega

/-- Witness for C3 (amended): 123456 is hit by exactly one draw. -/
theorem otp_uniform_six_digits_truncated_witness :
    ∃! r : Nat, r < 899999 ∧ genOtpNat r = 123456 :=
  otp_uniform_six_digits_truncated.2 123456 (by norm_num) (by norm_num)

/-- C2: the logout route is mounted without the authentication middleware
(`router.post("/logout", logoutUser)`), so `req.user` is never populated:
logout blacklists the presented token unconditionally but never clears any
stored refresh token, even when the presented token is valid — shown
generally and on a concrete user whose stored refresh token survives a
logout carrying that user's valid access token. -/
theorem logout_blacklists_but_never_clears_refresh :
    (∀ (h : Option String) (st : AuthState),
        (logoutRoute h st).2.users = st.users
        ∧ (logoutRoute h st).2.blacklistedTokens = setAdd h st.blacklistedTokens) ∧
    ((logoutRoute (some "VALID.ACCESS.TOKEN")
        ⟨[⟨1, "Jane", "Doe", "jane@northeastern.edu", "HASH1", "student",
            some "REFRESH.TOKEN"⟩], [], []⟩).2.users
      = [⟨1, "Jane", "Doe", "jane@northeastern.edu", "HASH1", "student",
          some "REFRESH.TOKEN"⟩]) ∧
    (isTokenBlacklisted (some "VALID.ACCESS.TOKEN")
        ((logoutRoute (some "VALID.ACCESS.TOKEN")
          ⟨[⟨1, "Jane", "Doe", "jane@northeastern.edu", "HASH1", "student",
              some "REFRESH.TOKEN"⟩], [], []⟩).2.blacklistedTokens) = true) := by
  exact ⟨fun h st => ⟨rfl, rfl⟩, rfl, by decide⟩

/-- C1 (code bug): `getAllUsers` serializes the user documents whole, so the
stored bcrypt password hash appears in the response body (shown on a
concrete store, and via the "password" key present on every serialized
document); by contrast the register/login user projection carries exactly
the keys id, firstName, lastName, email and role. -/
theorem getAllUsers_leaks_password_hash :
    (("password", Json.str "HASH1")
        ∈ objFields ((arrElems ((getAllUsers
          ⟨[⟨1, "Jane", "Doe", "jane@northeastern.edu", "HASH1", "student", none⟩],
            [], []⟩).1.body)).headD Json.null)) ∧
    ((getAllUsers ⟨[⟨1, "Jane", "Doe", "jane@northeastern.edu", "HASH1", "student",
        none⟩], [], []⟩).1.status = 200) ∧
    (∀ u : StoredUser, "password" ∈ topLevelKeys (serializeUser u)) ∧
    (∀ u : StoredUser,
        topLevelKeys (userProjection u)
          = ["id", "firstName", "lastName", "email", "role"]) := by
  refine ⟨?_, rfl, fun u => ?_, fun u => rfl⟩
  · simp [getAllUsers, serializeUser, arrElems, objFields]
  · simp [topLevelKeys, objFields, serializeUser]

/-- C4: when the presented refresh token has a valid signature and is
unexpired (`jv rt = some uid`) but no user document with that id stores
exactly this refresh token, the refresh operation answers 401 "Invalid
refresh token or user not found", mints nothing (no accessToken field in
the body) and leaves the state unchanged. -/
theorem refreshToken_stored_mismatch_unauthorized
    (jv : String → Option Nat) (ts : TokenSigner) (rt : String)
    (ah : Option String) (st : AuthState) (uid : Nat)
    (hne : rt ≠ "")
    (hsig : jv rt = some uid)
    (hmismatch : ∀ u ∈ st.users, u.id = uid → u.refreshToken ≠ some rt) :
    (refreshToken jv ts (some rt) ah st).1
        = ⟨401, msgBody "Invalid refresh token or user not found"⟩
    ∧ "accessToken" ∉ topLevelKeys (refreshToken jv ts (some rt) ah st).1.body
    ∧ (refreshToken jv ts (some rt) ah st).2 = st := by
  have hfind : findOneByIdAndRefreshToken uid rt st.users = none := by
    rw [findOneByIdAndRefreshToken, List.find?_eq_none]
    intro u hu
    simp only [Bool.and_eq_true, beq_iff_eq, not_and]
    intro hid
    exact fun hrt => hmismatch u hu hid hrt
  have hred : refreshToken jv ts (some rt) ah st
      = (⟨401, msgBody "Invalid refresh token or user not found"⟩, st) := by
    simp [refreshToken, hne, hsig, hfind]
  rw [hred]
  exact ⟨rfl, by simp [topLevelKeys, objFields, msgBody], rfl⟩

/-- Witness for C4: a signed refresh token for user 1 that differs from the
stored one is rejected with 401. -/
theorem refreshToken_stored_mismatch_unauthorized_witness :
    (refreshToken (fun s => if s == "RT" then some 1 else none)
        ⟨fun _ _ _ => "AT", fun _ => "RT2"⟩ (some "RT") none
        ⟨[⟨1, "Jane", "Doe", "jane@northeastern.edu", "HASH1", "student",
            some "DIFFERENT.RT"⟩], [], []⟩).1
      = ⟨401, msgBody "Invalid refresh token or user not found"⟩ :=
  (refreshToken_stored_mismatch_unauthorized
    (fun s => if s == "RT" then some 1 else none)
    ⟨fun _ _ _ => "AT", fun _ => "RT2"⟩ "RT" none
    ⟨[⟨1, "Jane", "Doe", "jane@northeastern.edu", "HASH1", "student",
        some "DIFFERENT.RT"⟩], [], []⟩ 1
    (by decide) (by simp) (by decide)).1

/-- C5: the refresh operation never modifies the users collection (so in
particular it never replaces a stored refresh token), and neither do
logout (as routed), forgot-password, verify-otp, resend-otp, get-all-users
or reset-password — among this subsystem's operations only register and
login write that field. -/
theorem refresh_never_touches_stored_refresh_tokens :
    (∀ (jv : String → Option Nat) (ts : TokenSigner) (b ah : Option String)
        (st : AuthState), ((refreshToken jv ts b ah st).2).users = st.users) ∧
    (∀ (h : Option String) (st : AuthState),
        ((logoutRoute h st).2).users = st.users) ∧
    (∀ (r now : Nat) (e : String) (st : AuthState),
        ((forgotPassword r now e st).2).users = st.users) ∧
    (∀ (now : Nat) (e o : String) (st : AuthState),
        ((verifyOtp now e o st).2).users = st.users) ∧
    (∀ (r now : Nat) (e : String) (st : AuthState),
        ((resendOtp r now e st).2).users = st.users) ∧
    (∀ st : AuthState, (getAllUsers st).2 = st) ∧
    (∀ (hp : String → String) (e p : String) (st : AuthState),
        ((resetPassword hp e p st).2).users.map StoredUser.refreshToken
          = st.users.map StoredUser.refreshToken) := by
  refine ⟨?_, fun h st => rfl, ?_, ?_, ?_, fun st => rfl, ?_⟩
  · intro jv ts b ah st
    unfold refreshToken
    cases b with
    | none => rfl
    | some rt =>
      dsimp only
      split
      · rfl
      · cases jv rt with
        | none => rfl
        | some uid =>
          dsimp only
          cases findOneByIdAndRefreshToken uid rt st.users with
          | none => rfl
          | some user => rfl
  · intro r now e st
    unfold forgotPassword
    cases findOneByEmail e st.users with
    | none => rfl
    | some u => rfl
  · intro now e o st
    unfold verifyOtp
    cases mapGet e st.otpStore with
    | none => rfl
    | some d =>
      dsimp only
      by_cases h1 : d.expiresAt < now
      · simp [h1]
      · by_cases h2 : d.otp ≠ o
        · simp [h1, h2]
        · simp [h1, h2]
  · intro r now e st
    unfold resendOtp
    by_cases h : mapHas e st.otpStore
    · simp [h]
    · simp [h]
  · intro hp e p st
    unfold resetPassword
    cases findOneByEmail e st.users with
    | none => rfl
    | some user =>
      dsimp only
      rw [List.map_map]
      apply List.map_congr_left
      intro u hu
      by_cases h : u.id == user.id
      · simp [Function.comp, h]
      · simp [Function.comp, h]

/-- C6: OTP verification is single-use — with a live (unexpired) entry whose
code matches, verify answers 200 and deletes the entry, and an identical
second verify for the same email answers the NotFound response. -/
theorem verifyOtp_single_use (now : Nat) (email code : String) (st : AuthState)
    (entry : OtpEntry)
    (hget : mapGet email st.otpStore = some entry)
    (hlive : ¬ entry.expiresAt < now)
    (hmatch : entry.otp = code) :
    (verifyOtp now email code st).1
        = ⟨200, msgBody "OTP verified successfully. You can now reset your password."⟩
    ∧ mapHas email ((verifyOtp now email code st).2.otpStore) = false
    ∧ (verifyOtp now email code ((verifyOtp now email code st).2)).1
        = ⟨400, msgBody "No OTP request found. Please request OTP again."⟩ := by
  have hred : verifyOtp now email code st
      = (⟨200, msgBody "OTP verified successfully. You can now reset your password."⟩,
         { st with otpStore := mapDelete email st.otpStore }) := by
    simp [verifyOtp, hget, hlive, hmatch]
  refine ⟨by rw [hred], ?_, ?_⟩
  · rw [hred]
    exact mapHas_mapDelete_self email st.otpStore
  · rw [hred]
    simp [verifyOtp, mapGet_mapDelete_self]

/-- Witness for C6: a concrete live OTP verifies once and is gone. -/
theorem verifyOtp_single_use_witness :
    (verifyOtp 500 "a@b.com" "123456"
        ⟨[], [("a@b.com", ⟨"123456", 1000⟩)], []⟩).1
      = ⟨200, msgBody "OTP verified successfully. You can now reset your password."⟩
    ∧ mapHas "a@b.com" ((verifyOtp 500 "a@b.com" "123456"
        ⟨[], [("a@b.com", ⟨"123456", 1000⟩)], []⟩).2.otpStore) = false
    ∧ (verifyOtp 500 "a@b.com" "123456" ((verifyOtp 500 "a@b.com" "123456"
        ⟨[], [("a@b.com", ⟨"123456", 1000⟩)], []⟩).2)).1
      = ⟨400, msgBody "No OTP request found. Please request OTP again."⟩ :=
  verifyOtp_single_use 500 "a@b.com" "123456"
    ⟨[], [("a@b.com", ⟨"123456", 1000⟩)], []⟩ ⟨"123456", 1000⟩
    (by decide) (by decide) rfl

/-- C7: an entry whose expiry lies strictly before the current time makes
verify answer the Expired response regardless of the submitted code, and
the entry is deleted as a side effect. -/
theorem verifyOtp_expired_deletes_entry (now : Nat) (email code : String)
    (st : AuthState) (entry : OtpEntry)
    (hget : mapGet email st.otpStore = some entry)
    (hexp : entry.expiresAt < now) :
    (verifyOtp now email code st).1
        = ⟨400, msgBody "OTP expired. Please request a new one."⟩
    ∧ mapHas email ((verifyOtp now email code st).2.otpStore) = false := by
  have hred : verifyOtp now email code st
      = (⟨400, msgBody "OTP expired. Please request a new one."⟩,
         { st with otpStore := mapDelete email st.otpStore }) := by
    simp [verifyOtp, hget, hexp]
  exact ⟨by rw [hred], by rw [hred]; exact mapHas_mapDelete_self email st.otpStore⟩

/-- Witness for C7: an expired entry is reported Expired (even for a
non-matching code) and removed. -/
theorem verifyOtp_expired_deletes_entry_witness :
    (verifyOtp 2000 "a@b.com" "999999"
        ⟨[], [("a@b.com", ⟨"123456", 1000⟩)], []⟩).1
      = ⟨400, msgBody "OTP expired. Please request a new one."⟩
    ∧ mapHas "a@b.com" ((verifyOtp 2000 "a@b.com" "999999"
        ⟨[], [("a@b.com", ⟨"123456", 1000⟩)], []⟩).2.otpStore) = false :=
  verifyOtp_expired_deletes_entry 2000 "a@b.com" "999999"
    ⟨[], [("a@b.com", ⟨"123456", 1000⟩)], []⟩ ⟨"123456", 1000⟩
    (by decide) (by decide)

/-- C8: the two failing login paths — unknown email, and known email with a
failing hash comparison — both answer 401 with the same generic "Invalid
credentials" body, and neither mutates the state, so the caller cannot
tell whether the email exists. -/
theorem login_failures_indistinguishable
    (bc : String → String → Bool) (ts : TokenSigner) (st : AuthState)
    (e1 p1 e2 p2 : String) (u : StoredUser)
    (h1 : findOneByEmail e1 st.users = none)
    (h2 : findOneByEmail e2 st.users = some u)
    (h3 : bc p2 u.password = false) :
    (loginUser bc ts e1 p1 st).1 = ⟨401, msgBody "Invalid credentials"⟩
    ∧ (loginUser bc ts e2 p2 st).1 = ⟨401, msgBody "Invalid credentials"⟩
    ∧ (loginUser bc ts e1 p1 st).1 = (loginUser bc ts e2 p2 st).1
    ∧ (loginUser bc ts e1 p1 st).2 = st
    ∧ (loginUser bc ts e2 p2 st).2 = st := by
  have ha : loginUser bc ts e1 p1 st = (⟨401, msgBody "Invalid credentials"⟩, st) := by
    simp [loginUser, h1]
  have hb : loginUser bc ts e2 p2 st = (⟨401, msgBody "Invalid credentials"⟩, st) := by
    simp [loginUser, h2, h3]
  rw [ha, hb]
  exact ⟨rfl, rfl, rfl, rfl, rfl⟩

/-- Witness for C8: on a store holding only Jane, logging in as an unknown
email and logging in as Jane with a rejected password produce the same
response. -/
theorem login_failures_indistinguishable_witness :
    (loginUser (fun _ _ => false) ⟨fun _ _ _ => "AT", fun _ => "RT"⟩
        "absent@example.com" "pw1"
        ⟨[⟨1, "Jane", "Doe", "jane@northeastern.edu", "HASH1", "student", none⟩],
          [], []⟩).1
      = ⟨401, msgBody "Invalid credentials"⟩
    ∧ (loginUser (fun _ _ => false) ⟨fun _ _ _ => "AT", fun _ => "RT"⟩
        "jane@northeastern.edu" "pw2"
        ⟨[⟨1, "Jane", "Doe", "jane@northeastern.edu", "HASH1", "student", none⟩],
          [], []⟩).1
      = ⟨401, msgBody "Invalid credentials"⟩
    ∧ (loginUser (fun _ _ => false) ⟨fun _ _ _ => "AT", fun _ => "RT"⟩
        "absent@example.com" "pw1"
        ⟨[⟨1, "Jane", "Doe", "jane@northeastern.edu", "HASH1", "student", none⟩],
          [], []⟩).1
      = (loginUser (fun _ _ => false) ⟨fun _ _ _ => "AT", fun _ => "RT"⟩
        "jane@northeastern.edu" "pw2"
        ⟨[⟨1, "Jane", "Doe", "jane@northeastern.edu", "HASH1", "student", none⟩],
          [], []⟩).1
    ∧ (loginUser (fun _ _ => false) ⟨fun _ _ _ => "AT", fun _ => "RT"⟩
        "absent@example.com" "pw1"
        ⟨[⟨1, "Jane", "Doe", "jane@northeastern.edu", "HASH1", "student", none⟩],
          [], []⟩).2
      = ⟨[⟨1, "Jane", "Doe", "jane@northeastern.edu", "HASH1", "student", none⟩],
          [], []⟩
    ∧ (loginUser (fun _ _ => false) ⟨fun _ _ _ => "AT", fun _ => "RT"⟩
        "jane@northeastern.edu" "pw2"
        ⟨[⟨1, "Jane", "Doe", "jane@northeastern.edu", "HASH1", "student", none⟩],
          [], []⟩).2
      = ⟨[⟨1, "Jane", "Doe", "jane@northeastern.edu", "HASH1", "student", none⟩],
          [], []⟩ :=
  login_failures_indistinguishable (fun _ _ => false)
    ⟨fun _ _ _ => "AT", fun _ => "RT"⟩
    ⟨[⟨1, "Jane", "Doe", "jane@northeastern.edu", "HASH1", "student", none⟩],
      [], []⟩
    "absent@example.com" "pw1" "jane@northeastern.edu" "pw2"
    ⟨1, "Jane", "Doe", "jane@northeastern.edu", "HASH1", "student", none⟩
    (by decide) (by decide) rfl

end XploreNU

